import Mathlib

/-
Verification of the `Option<T>` container class (src/eslint.config.js,
second document: `export default class Option<T>`).

Shallow embedding. A JavaScript value of the instantiating type `T`
(which, in TypeScript, may or may not include `undefined` in its domain)
is modelled by `JsVal α`: `JsVal.val a` is a proper (defined) value and
`JsVal.undef` is the JavaScript `undefined` sentinel. The class keeps a
single public field `value : T | undefined`, modelled as the one-field
structure `Opt α` with `value : JsVal α`; absence is, as in the source,
exactly the slot being `undefined`.

Methods mutate the receiver only through assignments to `this.value`
(`_exchange` and `insert` are the only methods that assign). Every method
is embedded in state-passing style: the receiver's state goes in, and the
result is a pair `(JS return value, receiver state after the call)`; for
the read-only methods the returned state is the incoming one, mirroring
the absence of any assignment in their bodies. `expect`/`unwrap`, which
may `throw new Error(msg)`, return `Except JsError _`, where `JsError`
records the thrown error's message. `getOrInsertWith` takes a
caller-supplied zero-argument function; to reason about how often that
function is invoked, it is embedded with an explicit effect state `σ`
threaded through the callback (`f : σ → JsVal α × σ`), exactly one
threading per syntactic call of `f()` in the source body.
-/

set_option autoImplicit false

universe u v w

variable {α : Type u} {β : Type v} {γ : Type w}

/-- A JavaScript value of type `T | undefined`: either the `undefined`
sentinel or a proper value of `T`. -/
inductive JsVal (α : Type u) : Type u where
  | undef : JsVal α
  | val (a : α) : JsVal α
  deriving DecidableEq, Repr

/-- Tests whether a JavaScript value is the `undefined` sentinel
(the `=== undefined` comparison of the source). -/
def JsVal.isUndef : JsVal α → Bool
  | .undef => true
  | .val _ => false

/-- A JavaScript `Error` object, recording its message. `expect` throws
`new Error(msg)`; nothing else in the class throws. -/
structure JsError : Type where
  message : String
  deriving DecidableEq, Repr

/-- State of an `Option<T>` instance: its single public field
`value : T | undefined`. -/
structure Opt (α : Type u) : Type u where
  value : JsVal α
  deriving DecidableEq, Repr

namespace Opt

/-- Embeds `static some<T>(value: T): Option<T> { return new Option(value); }`.
The constructor stores the argument verbatim in the `value` slot; the
argument ranges over `JsVal α` because the instantiating type `T` may
itself contain `undefined`. -/
def some (v : JsVal α) : Opt α := ⟨v⟩

/-- Embeds `static none<T>(): Option<T> { return new Option(); }` — the
constructor's default argument is `undefined`. -/
def none : Opt α := ⟨.undef⟩

/-- Embeds the private `_exchange(value)`: builds `new Option(this.value)`,
assigns `this.value = value`, and returns the new option. The pair is
`(returned option, receiver state after the call)`. -/
def exchange (o : Opt α) (v : JsVal α) : Opt α × Opt α :=
  (⟨o.value⟩, ⟨v⟩)

/-- Embeds `isNone(): boolean { return this.value === undefined; }`. -/
def isNone (o : Opt α) : Bool × Opt α :=
  (o.value.isUndef, o)

/-- Embeds `isSome(): boolean { return !this.isNone(); }`. -/
def isSome (o : Opt α) : Bool × Opt α :=
  let r := isNone o
  (!r.1, r.2)

/-- Embeds `isSomeAnd(predicate) { return this.isSome() && predicate(this.value); }`.
When `isSome()` holds the slot is `JsVal.val a` (the source's type
narrowing) and the predicate is applied to `a`; otherwise the conjunction
short-circuits to `false`. -/
def isSomeAnd (o : Opt α) (p : α → Bool) : Bool × Opt α :=
  match o.value with
  | .val a => (p a, o)
  | .undef => (false, o)

/-- Embeds `asSlice(): T[] { return this.isSome() ? [this.value] : []; }`. -/
def asSlice (o : Opt α) : List α × Opt α :=
  match o.value with
  | .val a => ([a], o)
  | .undef => ([], o)

/-- Embeds `expect(msg) { if (this.isSome()) { return this.value; } throw new Error(msg); }`. -/
def expect (o : Opt α) (msg : String) : Except JsError α × Opt α :=
  match o.value with
  | .val a => (.ok a, o)
  | .undef => (.error ⟨msg⟩, o)

/-- Embeds `unwrap() { return this.expect("Option is None"); }`. -/
def unwrap (o : Opt α) : Except JsError α × Opt α :=
  expect o "Option is None"

/-- Embeds `unwrapOrElse(f) { return this.isSome() ? this.value : f(); }`.
The fallback function may itself return `undefined` when `T` contains it,
so its result — and hence the method's — is a `JsVal α`. -/
def unwrapOrElse (o : Opt α) (f : Unit → JsVal α) : JsVal α × Opt α :=
  match o.value with
  | .val a => (.val a, o)
  | .undef => (f (), o)

/-- Embeds `unwrapOr(fallback) { return this.unwrapOrElse(() => fallback); }`. -/
def unwrapOr (o : Opt α) (fallback : JsVal α) : JsVal α × Opt α :=
  unwrapOrElse o (fun _ => fallback)

/-- Embeds `map(f) { return this.isSome() ? Option.some(f(this.value)) : Option.none(); }`.
The mapping function returns a value of the target type `U`, which may
contain `undefined`, so `f : α → JsVal β` and its result is stored in the
new option's slot verbatim. -/
def map (o : Opt α) (f : α → JsVal β) : Opt β × Opt α :=
  match o.value with
  | .val a => (Opt.some (f a), o)
  | .undef => (Opt.none, o)

/-- Embeds `inspect(f) { if (this.isSome()) { f(this.value); } return this; }` —
the callback's return value is discarded and the receiver is returned. -/
def inspect (o : Opt α) (f : α → Unit) : Opt α × Opt α :=
  match o.value with
  | .val a =>
    let _ := f a
    (o, o)
  | .undef => (o, o)

/-- Embeds `mapOrElse(fallback, f) { return this.isSome() ? f(this.value) : fallback(); }`. -/
def mapOrElse (o : Opt α) (fallback : Unit → β) (f : α → β) : β × Opt α :=
  match o.value with
  | .val a => (f a, o)
  | .undef => (fallback (), o)

/-- Embeds `mapOr(fallback, f) { return this.mapOrElse(() => fallback, f); }`. -/
def mapOr (o : Opt α) (fallback : β) (f : α → β) : β × Opt α :=
  mapOrElse o (fun _ => fallback) f

/-- Embeds `andThen(f) { return this.isSome() ? f(this.value) : Option.none(); }`. -/
def andThen (o : Opt α) (f : α → Opt β) : Opt β × Opt α :=
  match o.value with
  | .val a => (f a, o)
  | .undef => (Opt.none, o)

/-- Embeds `and(optb) { return this.andThen(() => optb); }`. -/
def and (o : Opt α) (optb : Opt β) : Opt β × Opt α :=
  andThen o (fun _ => optb)

/-- Embeds `filter(predicate) { return this.isSomeAnd(predicate) ? this : Option.none(); }`. -/
def filter (o : Opt α) (p : α → Bool) : Opt α × Opt α :=
  let r := isSomeAnd o p
  if r.1 then (r.2, r.2) else (Opt.none, r.2)

/-- Embeds `orElse(f) { return this.isSome() ? this : f(); }`. -/
def orElse (o : Opt α) (f : Unit → Opt α) : Opt α × Opt α :=
  match o.value with
  | .val _ => (o, o)
  | .undef => (f (), o)

/-- Embeds `or(optb) { return this.orElse(() => optb); }`. -/
def or (o : Opt α) (optb : Opt α) : Opt α × Opt α :=
  orElse o (fun _ => optb)

/-- Embeds `xor(optb) { return this.isSome() ? (optb.isNone() ? this : Option.none()) : optb; }`. -/
def xor (o : Opt α) (optb : Opt α) : Opt α × Opt α :=
  match o.value with
  | .val _ =>
    match optb.value with
    | .undef => (o, o)
    | .val _ => (Opt.none, o)
  | .undef => (optb, o)

/-- Embeds `insert(value) { this.value = value; return this.value; }`. -/
def insert (o : Opt α) (v : JsVal α) : JsVal α × Opt α :=
  let _ := o
  (v, ⟨v⟩)

/-- Embeds `getOrInsertWith(f) { return this.isSome() ? this.value : this.insert(f()); }`.
The zero-argument callback is given an explicit effect state `σ`
(`f : σ → JsVal α × σ`), threaded once for the single syntactic call
`f()` in the absent branch; the triple is
`(JS return value, receiver state after, effect state after)`. -/
def getOrInsertWith {σ : Type} (o : Opt α) (f : σ → JsVal α × σ) (s : σ) :
    JsVal α × Opt α × σ :=
  match o.value with
  | .val a => (.val a, o, s)
  | .undef =>
    let r := f s
    let i := insert o r.1
    (i.1, i.2, r.2)

/-- Embeds `getOrInsert(value) { return this.getOrInsertWith(() => value); }`. -/
def getOrInsert (o : Opt α) (v : JsVal α) : JsVal α × Opt α :=
  let r := getOrInsertWith (σ := Unit) o (fun s => (v, s)) ()
  (r.1, r.2.1)

/-- Embeds `take() { return this._exchange(undefined); }`. -/
def take (o : Opt α) : Opt α × Opt α :=
  exchange o (.undef)

/-- Embeds `replace(value) { return this._exchange(value); }`. -/
def replace (o : Opt α) (v : JsVal α) : Opt α × Opt α :=
  exchange o v

/-- Embeds `zip(other) { return this.isSome() && other.isSome() ? Option.some([this.value, other.value]) : Option.none(); }`. -/
def zip (o : Opt α) (other : Opt β) : Opt (α × β) × Opt α :=
  match o.value, other.value with
  | .val a, .val b => (Opt.some (.val (a, b)), o)
  | .val _, .undef => (Opt.none, o)
  | .undef, _ => (Opt.none, o)

end Opt

section Claims

variable {α : Type u} {β : Type v} {γ : Type w}

/-- C1: for every value `v`, the present-construction factory `some(v)`
(the spec's `of(v)`) produces a container on which `isSome()` returns
`true` and `unwrap()` returns `v`. Values range over the proper
(non-`undefined`) domain of `T`; the `undefined` sentinel itself is the
absence marker, treated separately in the sentinel-representation claim. -/
theorem C1_some_isSome_unwrap (a : α) :
    ((Opt.some (.val a)).isSome).1 = true ∧
    ((Opt.some (.val a)).unwrap).1 = .ok a :=
  ⟨rfl, rfl⟩

/-- C2: `expect(msg)` returns the contained value on a present container
and otherwise fails with an error carrying exactly `msg`; `unwrap()` is
literally `expect` with the fixed message "Option is None"; and neither
fails on a present container. Every other operation of the embedding is a
total function (no `Except` in its result type), matching the source, in
which only `expect` contains a `throw`. -/
theorem C2_expect_unwrap (msg : String) (a : α) :
    ((Opt.some (.val a)).expect msg).1 = .ok a ∧
    ((Opt.none : Opt α).expect msg).1 = .error ⟨msg⟩ ∧
    (∀ o : Opt α, o.unwrap = o.expect "Option is None") ∧
    ((Opt.some (.val a)).unwrap).1 = .ok a ∧
    ((Opt.none : Opt α).unwrap).1 = .error ⟨"Option is None"⟩ :=
  ⟨rfl, rfl, fun _ => rfl, rfl, rfl⟩

/-- Mapping function for the functor-composition counterexample: returns
`undefined` on every input, as `map`'s target type may contain
`undefined`. -/
def cexF : Nat → JsVal Nat := fun _ => (.undef)

/-- Second mapping function for the functor-composition counterexample:
accepts a possibly-`undefined` argument (as it must, to compose with
`cexF`) and returns the proper value `42`. -/
def cexG : JsVal Nat → JsVal Nat := fun _ => .val 42

/-- C3 (counterexample): the functor composition law fails as stated.
With `f` returning `undefined` and `g` constantly `42`,
`some(1).map(f).map(g)` is empty — the intermediate container's slot is
the `undefined` sentinel, so the second `map` sees `None` — while
`some(1).map(x => g(f(x)))` is present with `42`. -/
theorem C3_counterexample :
    (((Opt.some (.val 1) : Opt Nat).map cexF).1.map (fun b => cexG (.val b))).1 ≠
      ((Opt.some (.val 1) : Opt Nat).map (fun a => cexG (cexF a))).1 := by
  decide

/-- C3 (amended): `map` satisfies the functor identity law
unconditionally, and the composition law `c.map(f).map(g)` =
`c.map(x => g(f(x)))` holds provided `f` never maps a value to the
`undefined` sentinel (so that the intermediate container faithfully
carries `f`'s result). -/
theorem C3_functor_laws (o : Opt α) (f : α → JsVal β) (g : JsVal β → JsVal γ)
    (hf : ∀ a, f a ≠ .undef) :
    (o.map (fun a => JsVal.val a)).1 = o ∧
    ((o.map f).1.map (fun b => g (.val b))).1 = (o.map (fun a => g (f a))).1 := by
  obtain ⟨_ | a⟩ := o
  · exact ⟨rfl, rfl⟩
  · refine ⟨rfl, ?_⟩
    cases hfa : f a with
    | undef => exact absurd hfa (hf a)
    | val b => simp [Opt.map, Opt.some, hfa]

/-- Witness for the amended functor laws at `some(1)`, `f = val`,
`g` constantly `5`. -/
theorem C3_functor_laws_witness :
    ((Opt.some (.val 1) : Opt Nat).map (fun a => JsVal.val a)).1 = Opt.some (.val 1) ∧
    (((Opt.some (.val 1) : Opt Nat).map (fun a => JsVal.val a)).1.map
        (fun _ => JsVal.val (5 : Nat))).1 =
      ((Opt.some (.val 1) : Opt Nat).map (fun _ => JsVal.val (5 : Nat))).1 :=
  C3_functor_laws (Opt.some (.val 1)) (fun a => JsVal.val a) (fun _ => JsVal.val 5)
    (fun _ h => JsVal.noConfusion h)

/-- C4: monad left identity — for every value `v` and every function `f`
returning a container, `some(v).andThen(f)` is exactly `f(v)`, in state
and value. -/
theorem C4_andThen_left_identity (v : α) (f : α → Opt β) :
    ((Opt.some (.val v)).andThen f).1 = f v :=
  rfl

/-- C5: `xor` follows the exclusive-union truth table — the present one
of the two when exactly one is present, empty when both are present or
both absent. Quantifying over the contained values covers every pair of
container states. -/
theorem C5_xor_table (v w : α) :
    ((Opt.some (.val v)).xor Opt.none).1 = Opt.some (.val v) ∧
    ((Opt.none : Opt α).xor (Opt.some (.val w))).1 = Opt.some (.val w) ∧
    ((Opt.some (.val v)).xor (Opt.some (.val w))).1 = Opt.none ∧
    ((Opt.none : Opt α).xor Opt.none).1 = Opt.none :=
  ⟨rfl, rfl, rfl, rfl⟩

/-- C6: `take()` on a present container returns a present container
holding the original value and leaves the receiver empty, so `unwrap()`
on the receiver afterward fails; on an empty container it returns an
empty container, and the receiver stays empty, so repeated `take()`
calls keep returning empty containers. -/
theorem C6_take (a : α) :
    (Opt.some (.val a)).take = (Opt.some (.val a), (Opt.none : Opt α)) ∧
    (((Opt.some (.val a)).take).2.unwrap).1 = .error ⟨"Option is None"⟩ ∧
    (Opt.none : Opt α).take = (Opt.none, Opt.none) ∧
    (((Opt.none : Opt α).take).2.take).1 = Opt.none :=
  ⟨rfl, rfl, rfl, rfl⟩

/-- C7: `insert(v)` on any container leaves the receiver present holding
`v` and returns the newly stored value; `replace(v2)` on a container
holding `v1` returns a present container holding `v1` while the receiver
afterward holds `v2`. Values range over the proper (non-`undefined`)
domain of `T`. -/
theorem C7_insert_replace (v v1 v2 : α) (o : Opt α) :
    o.insert (.val v) = (.val v, Opt.some (.val v)) ∧
    ((o.insert (.val v)).2.isSome).1 = true ∧
    (Opt.some (.val v1)).replace (.val v2) = (Opt.some (.val v1), Opt.some (.val v2)) ∧
    (((Opt.some (.val v1)).replace (.val v2)).2.unwrap).1 = .ok v2 :=
  ⟨rfl, rfl, rfl, rfl⟩

end Claims

section FrameClaims

variable {α : Type u} {β : Type v}

/-- Helper for the frame property of `filter`: both branches of its
conditional carry the unchanged receiver. -/
theorem filter_snd (o : Opt α) (p : α → Bool) : (o.filter p).2 = o := by
  obtain ⟨_ | a⟩ := o
  · rfl
  · simp only [Opt.filter, Opt.isSomeAnd]
    cases p a <;> rfl

/-- Helper for the frame property of `xor`: in every branch of its nested
conditional the receiver is unchanged. -/
theorem xor_snd (o optb : Opt α) : (o.xor optb).2 = o := by
  obtain ⟨_ | a⟩ := o <;> obtain ⟨_ | b⟩ := optb <;> rfl

/-- Helper for the frame property of `zip`: in every branch the receiver
is unchanged. -/
theorem zip_snd (o : Opt α) (other : Opt β) : (o.zip other).2 = o := by
  obtain ⟨_ | a⟩ := o <;> obtain ⟨_ | b⟩ := other <;> rfl

/-- C8: every operation other than `take`, `replace`, `insert`,
`getOrInsert` and `getOrInsertWith` leaves the receiver's state (presence
and contained value) unchanged — for each of the nineteen read-only
methods, the receiver state coming out of the state-passing embedding is
the state that went in, for every receiver and every argument. -/
theorem C8_read_only (o optb : Opt α) (optu : Opt β) (p : α → Bool)
    (msg : String) (fb : JsVal α) (fe : Unit → JsVal α) (fm : α → JsVal β)
    (fi : α → Unit) (b0 : β) (gb : Unit → β) (gm : α → β) (fa : α → Opt β)
    (fo : Unit → Opt α) :
    (o.isSome).2 = o ∧ (o.isNone).2 = o ∧ (o.isSomeAnd p).2 = o ∧
    (o.asSlice).2 = o ∧ (o.expect msg).2 = o ∧ (o.unwrap).2 = o ∧
    (o.unwrapOr fb).2 = o ∧ (o.unwrapOrElse fe).2 = o ∧ (o.map fm).2 = o ∧
    (o.inspect fi).2 = o ∧ (o.mapOr b0 gm).2 = o ∧ (o.mapOrElse gb gm).2 = o ∧
    (o.and optu).2 = o ∧ (o.andThen fa).2 = o ∧ (o.filter p).2 = o ∧
    (o.or optb).2 = o ∧ (o.orElse fo).2 = o ∧ (o.xor optb).2 = o ∧
    (o.zip optu).2 = o := by
  obtain ⟨_ | a⟩ := o
  · exact ⟨rfl, rfl, rfl, rfl, rfl, rfl, rfl, rfl, rfl, rfl, rfl, rfl, rfl,
      rfl, filter_snd _ _, rfl, rfl, xor_snd _ _, zip_snd _ _⟩
  · exact ⟨rfl, rfl, rfl, rfl, rfl, rfl, rfl, rfl, rfl, rfl, rfl, rfl, rfl,
      rfl, filter_snd _ _, rfl, rfl, xor_snd _ _, zip_snd _ _⟩

end FrameClaims

section MutationClaims

variable {α : Type u} {β : Type v}

/-- C9: `getOrInsertWith(f)` on a present container returns the existing
value, never invokes `f` (the effect state `s` threaded through `f` comes
back untouched, for every `f`), and leaves the receiver unchanged; on an
empty container it invokes `f()` exactly once (the final effect state is
`(f s).2`, one application of `f`), stores its result `b` in the
container and returns it, leaving the container present holding `b`. -/
theorem C9_getOrInsertWith (σ : Type) (f : σ → JsVal α × σ) (s : σ) (a b : α)
    (hb : (f s).1 = .val b) :
    (Opt.some (.val a)).getOrInsertWith f s = (.val a, Opt.some (.val a), s) ∧
    (Opt.none : Opt α).getOrInsertWith f s = (.val b, Opt.some (.val b), (f s).2) := by
  refine ⟨rfl, ?_⟩
  simp only [Opt.getOrInsertWith, Opt.insert, Opt.none, Opt.some, hb]

/-- Witness for C9 with a call-counting effect state: on `some(5)` the
counter stays `0`; on the empty container the function runs once, the
counter ends at `1`, and the stored and returned value is `7`. -/
theorem C9_getOrInsertWith_witness :
    (Opt.some (.val 5) : Opt Nat).getOrInsertWith (fun n : Nat => (JsVal.val 7, n + 1)) 0 =
      (.val 5, Opt.some (.val 5), 0) ∧
    (Opt.none : Opt Nat).getOrInsertWith (fun n : Nat => (JsVal.val 7, n + 1)) 0 =
      (.val 7, Opt.some (.val 7), 1) :=
  C9_getOrInsertWith Nat (fun n => (JsVal.val 7, n + 1)) 0 5 7 rfl

/-- C10: presence is determined solely by whether the value slot is the
`undefined` sentinel — `isNone()` returns exactly the slot's
`undefined`-test; `some(undefined)` is the very same state as `none()`
(hence behaves identically under every operation); and operations that
store `undefined` — `insert(undefined)`, or `map` with a function
returning `undefined` — yield an absent container. -/
theorem C10_undefined_sentinel (o : Opt α) (a : α) :
    (o.isNone).1 = o.value.isUndef ∧
    (Opt.some .undef : Opt α) = Opt.none ∧
    ((Opt.some .undef : Opt α).isNone).1 = true ∧
    (o.insert .undef).2 = Opt.none ∧
    ((Opt.some (.val a)).map (fun _ => (JsVal.undef : JsVal β))).1 = Opt.none :=
  ⟨rfl, rfl, rfl, rfl, rfl⟩

end MutationClaims
